import Mathlib

/-!
Shallow embedding of the `dci-example-rust` repository: the `Money` value
type (`src/money.rs`) and the role-based bank-account transfer protocol
(`src/bank_account.rs`).

The repository stores amounts in `rust_decimal::Decimal`, an external
dependency. The spec characterises it as an "arbitrary-precision decimal",
so the decimal layer is embedded as a scaled integer `mantissa / 10 ^ scale`
with an unbounded mantissa; each operation mirrors the semantics the
repository relies on (scale alignment on addition, numeric comparison by
cross multiplication, rescaling with round-half-away-from-zero, division
panicking on a zero divisor). Rust panics are modelled as `none`; Rust
`Result<T, MoneyError>` is `Except MoneyError T`.
-/

/-- The external decimal type: value `mantissa / 10 ^ scale`. -/
structure Decimal where
  mantissa : Int
  scale : Nat
deriving DecidableEq

/-- Numeric value of a decimal, as a rational. -/
def Decimal.val (d : Decimal) : ℚ := (d.mantissa : ℚ) / 10 ^ d.scale

/-- Decimal::zero(): zero mantissa at scale 0. -/
def Decimal.zero : Decimal := ⟨0, 0⟩

/-- Decimal::is_zero(): the mantissa is zero. -/
def Decimal.isZero (d : Decimal) : Bool := d.mantissa == 0

/-- Numeric equality of two decimals (rust_decimal `==`): the scales are
aligned and the mantissas compared, i.e. cross multiplication. -/
def Decimal.deqb (a b : Decimal) : Bool :=
  decide (a.mantissa * 10 ^ b.scale = b.mantissa * 10 ^ a.scale)

/-- Numeric strict order on decimals (rust_decimal `<`), by cross
multiplication. -/
def Decimal.dltb (a b : Decimal) : Bool :=
  decide (a.mantissa * 10 ^ b.scale < b.mantissa * 10 ^ a.scale)

/-- rust_decimal addition: align both operands to the larger scale and add
the mantissas (exact, in the arbitrary-precision model). -/
def Decimal.add (a b : Decimal) : Decimal :=
  ⟨a.mantissa * 10 ^ (max a.scale b.scale - a.scale)
    + b.mantissa * 10 ^ (max a.scale b.scale - b.scale),
   max a.scale b.scale⟩

/-- rust_decimal negation: negate the mantissa, keep the scale. -/
def Decimal.neg (a : Decimal) : Decimal := ⟨-a.mantissa, a.scale⟩

/-- rust_decimal `rescale(scale)`: scaling up multiplies the mantissa by a
power of ten; scaling down divides, rounding half away from zero on the
first dropped digit (the last remainder of the repeated division by 10). -/
def Decimal.rescale (d : Decimal) (s : Nat) : Decimal :=
  if d.scale ≤ s then
    ⟨d.mantissa * 10 ^ (s - d.scale), s⟩
  else
    let diff := d.scale - s
    let q := d.mantissa.natAbs / 10 ^ diff
    let r := d.mantissa.natAbs / 10 ^ (diff - 1) % 10
    let m := if 5 ≤ r then q + 1 else q
    ⟨if d.mantissa < 0 then -(m : Int) else (m : Int), s⟩

/-- Integer division rounding half away from zero, used by the embedded
decimal division. -/
def roundAwayDiv (n d : Int) : Int :=
  (if (decide (n < 0)) == (decide (d < 0)) then 1 else -1)
    * (((2 * n.natAbs + d.natAbs) / (2 * d.natAbs) : Nat) : Int)

/-- rust_decimal division. Division by zero panics in rust_decimal;
the panic is modelled as `none`. A nonzero divisor yields the quotient
carried to the crate's maximum precision of 28 fractional digits. -/
def Decimal.div (a b : Decimal) : Option Decimal :=
  if b.mantissa = 0 then none
  else some ⟨roundAwayDiv (a.mantissa * 10 ^ (b.scale + 28)) (b.mantissa * 10 ^ a.scale), 28⟩

/-- The ISO-4217 currency codes the development uses (the `iso_4217` crate
is an external catalog; all three modelled codes have a known canonical
fractional-digit count, which is what the claims quantify over). -/
inductive CurrencyCode where
  | USD
  | JPY
  | EUR
deriving DecidableEq

/-- CurrencyCode::digit(): the canonical fractional-digit count
(2 for USD, 0 for JPY, 2 for EUR per ISO 4217). -/
def CurrencyCode.digit : CurrencyCode → Nat
  | .USD => 2
  | .JPY => 0
  | .EUR => 2

/-- The Money value object of `src/money.rs`. -/
structure Money where
  amount : Decimal
  currency : CurrencyCode
deriving DecidableEq

/-- The error enum of `src/money.rs`: its single variant. -/
inductive MoneyError where
  | NotSameCurrencyError
deriving DecidableEq

/-- Money::new: rescale the amount to the currency's canonical digit count
on construction. -/
def Money.new (amount : Decimal) (currency : CurrencyCode) : Money :=
  ⟨amount.rescale currency.digit, currency⟩

/-- Money::zero(currency). -/
def Money.zero (currency : CurrencyCode) : Money := Money.new Decimal.zero currency

/-- Money::yens(amount). -/
def Money.yens (amount : Decimal) : Money := Money.new amount .JPY

/-- Money::yens_i32: Decimal::from_i32 yields the integer at scale 0
(the i32 range is irrelevant to the claims, so the argument is an Int). -/
def Money.yensI32 (n : Int) : Money := Money.yens ⟨n, 0⟩

/-- Money::is_zero. -/
def Money.isZero (m : Money) : Bool := m.amount.isZero

/-- Money::is_negative: amount < Decimal::zero(). -/
def Money.isNegative (m : Money) : Bool := Decimal.dltb m.amount Decimal.zero

/-- Money::is_positive: Decimal::zero() < amount. -/
def Money.isPositive (m : Money) : Bool := Decimal.dltb Decimal.zero m.amount

/-- Money::negated. -/
def Money.negated (m : Money) : Money := ⟨m.amount.neg, m.currency⟩

/-- Money::add: error when the currencies differ, otherwise the sum of the
amounts under the unchanged currency. -/
def Money.add (m other : Money) : Except MoneyError Money :=
  if m.currency ≠ other.currency then .error .NotSameCurrencyError
  else .ok ⟨m.amount.add other.amount, m.currency⟩

/-- Money::subtract: add the negation. -/
def Money.subtract (m other : Money) : Except MoneyError Money :=
  m.add other.negated

/-- Money::divided_by: the amount divided by the divisor (a decimal-layer
panic on a zero divisor propagates, modelled as `none`). -/
def Money.dividedBy (m : Money) (divisor : Decimal) : Option Money :=
  (m.amount.div divisor).map fun a => ⟨a, m.currency⟩

/-- PartialOrd for Money: different currencies compare to `none`; same
currency compares the amounts. -/
def Money.partialCmp (m other : Money) : Option Ordering :=
  if m.currency ≠ other.currency then none
  else if Decimal.dltb other.amount m.amount then some .gt
  else if Decimal.dltb m.amount other.amount then some .lt
  else some .eq

/-- The derived PartialEq for Money: numeric equality of the amounts and
equality of the currencies. -/
def Money.meq (a b : Money) : Bool :=
  Decimal.deqb a.amount b.amount && decide (a.currency = b.currency)

/-- PartialEq of Result<Money, MoneyError>: componentwise. -/
def Money.reqv : Except MoneyError Money → Except MoneyError Money → Bool
  | .ok a, .ok b => Money.meq a b
  | .error _, .error _ => true
  | _, _ => false

/-- BankAccountId newtype over u32 (no arithmetic is performed on ids). -/
structure BankAccountId where
  raw : Nat
deriving DecidableEq

/-- UserAccountId newtype over u32. -/
structure UserAccountId where
  raw : Nat
deriving DecidableEq

/-- The account data of `src/bank_account.rs`. -/
structure BankAccount where
  id : BankAccountId
  userAccountId : UserAccountId
  balance : Money
deriving DecidableEq

/-- BankAccount::new. -/
def BankAccount.new (id : BankAccountId) (userAccountId : UserAccountId)
    (balance : Money) : BankAccount :=
  ⟨id, userAccountId, balance⟩

/-- BankAccount::deposit: balance := balance.add(amount)?. -/
def BankAccount.deposit (self : BankAccount) (amount : Money) :
    Except MoneyError BankAccount :=
  (self.balance.add amount).map fun b => { self with balance := b }

/-- BankAccount::withdraw: balance := balance.subtract(amount)?. -/
def BankAccount.withdraw (self : BankAccount) (amount : Money) :
    Except MoneyError BankAccount :=
  (self.balance.subtract amount).map fun b => { self with balance := b }

/-- ReceiveRole::on_receive for BankAccount: deposit the money; the
already-debited sender state `_from` is taken but never read. -/
def BankAccount.onReceive (self : BankAccount) (money : Money)
    (_from : BankAccount) : Except MoneyError BankAccount :=
  (self.deposit money).bind fun newState => .ok newState

/-- SenderRole::send for BankAccount: withdraw, then let the receiver
observe the new sender state via on_receive. -/
def BankAccount.send (self : BankAccount) (money : Money) (to_ : BankAccount) :
    Except MoneyError (BankAccount × BankAccount) :=
  (self.withdraw money).bind fun newFrom =>
    (to_.onReceive money newFrom).bind fun newTo => .ok (newFrom, newTo)

/-- TransferContext (monomorphised at BankAccount, the only role
implementation in the repository). -/
structure TransferContext where
  from_ : BankAccount
  to_ : BankAccount

/-- TransferContext::new. -/
def TransferContext.new (from_ : BankAccount) (to_ : BankAccount) : TransferContext :=
  ⟨from_, to_⟩

/-- TransferContext::transfer: from.send(money, to). -/
def TransferContext.transfer (self : TransferContext) (money : Money) :
    Except MoneyError (BankAccount × BankAccount) :=
  self.from_.send money self.to_

/-! Helper lemmas: the rational value semantics of the decimal layer. -/

lemma ten_pow_pos (n : Nat) : (0 : ℚ) < 10 ^ n := pow_pos (by norm_num) n

lemma ten_pow_ne_zero (n : Nat) : (10 : ℚ) ^ n ≠ 0 := (ten_pow_pos n).ne'

lemma Decimal.deqb_iff (a b : Decimal) : a.deqb b = true ↔ a.val = b.val := by
  unfold Decimal.deqb Decimal.val
  rw [decide_eq_true_eq, div_eq_div_iff (ten_pow_ne_zero _) (ten_pow_ne_zero _)]
  constructor
  · intro h
    exact_mod_cast congrArg (fun z : Int => (z : ℚ)) h
  · intro h
    exact_mod_cast h

lemma Decimal.dltb_iff (a b : Decimal) : a.dltb b = true ↔ a.val < b.val := by
  unfold Decimal.dltb Decimal.val
  rw [decide_eq_true_eq, div_lt_div_iff₀ (ten_pow_pos _) (ten_pow_pos _)]
  constructor
  · intro h
    exact_mod_cast h
  · intro h
    exact_mod_cast h

lemma Decimal.isZero_iff (d : Decimal) : d.isZero = true ↔ d.val = 0 := by
  unfold Decimal.isZero Decimal.val
  rw [beq_iff_eq, div_eq_zero_iff]
  simp [ten_pow_ne_zero]

lemma Decimal.cast_scale_up (m : Int) (x s : Nat) (h : x ≤ s) :
    ((m : ℚ) * 10 ^ (s - x)) / 10 ^ s = (m : ℚ) / 10 ^ x := by
  rw [div_eq_div_iff (ten_pow_ne_zero _) (ten_pow_ne_zero _), mul_assoc, ← pow_add]
  congr 2
  omega

lemma Decimal.val_add (a b : Decimal) : (a.add b).val = a.val + b.val := by
  unfold Decimal.add Decimal.val
  push_cast
  rw [add_div]
  show _ = (a.mantissa : ℚ) / 10 ^ a.scale + (b.mantissa : ℚ) / 10 ^ b.scale
  rw [Decimal.cast_scale_up a.mantissa a.scale (max a.scale b.scale) (le_max_left _ _),
    Decimal.cast_scale_up b.mantissa b.scale (max a.scale b.scale) (le_max_right _ _)]

lemma Decimal.val_neg (a : Decimal) : a.neg.val = -a.val := by
  unfold Decimal.neg Decimal.val
  push_cast
  rw [neg_div]

lemma Decimal.val_zero : Decimal.zero.val = 0 := by
  unfold Decimal.zero Decimal.val
  norm_num

lemma Decimal.rescale_scale (d : Decimal) (s : Nat) : (d.rescale s).scale = s := by
  unfold Decimal.rescale
  split <;> rfl

lemma Money.isNegative_iff (m : Money) : m.isNegative = true ↔ m.amount.val < 0 := by
  unfold Money.isNegative
  rw [Decimal.dltb_iff, Decimal.val_zero]

lemma Money.zeroBalance_iff (m : Money) : m.isZero = true ↔ m.amount.val = 0 := by
  unfold Money.isZero
  exact Decimal.isZero_iff m.amount

lemma Money.meq_iff (a b : Money) :
    a.meq b = true ↔ a.amount.val = b.amount.val ∧ a.currency = b.currency := by
  unfold Money.meq
  rw [Bool.and_eq_true, Decimal.deqb_iff, decide_eq_true_eq]

lemma Money.reqv_ok_ok (a b : Money) : Money.reqv (.ok a) (.ok b) = Money.meq a b := rfl

/-! The claims. -/

/-- C1 (counterexample): the claim says withdrawing more than the balance
fails, but the code performs no balance check: withdrawing 1 JPY from a
zero-balance JPY account succeeds and leaves a negative balance of -1 JPY. -/
theorem c1_counterexample :
    ((BankAccount.new ⟨1⟩ ⟨1⟩ (Money.zero .JPY)).withdraw (Money.yensI32 1)
      = .ok (BankAccount.new ⟨1⟩ ⟨1⟩ ⟨⟨-1, 0⟩, .JPY⟩)) ∧
    Money.isNegative ⟨⟨-1, 0⟩, .JPY⟩ = true :=
  ⟨rfl, rfl⟩

/-- C1 (amended): for every account and same-currency amount, withdraw
always succeeds, the new balance is the old balance minus the amount,
withdrawing exactly the full balance yields a zero balance, and withdrawing
more than the balance (in particular the balance plus one smallest unit)
succeeds with a negative balance instead of failing. -/
theorem c1_withdraw_unchecked (a : BankAccount) (amount : Money)
    (h : amount.currency = a.balance.currency) :
    a.withdraw amount
      = .ok { a with balance := ⟨a.balance.amount.add amount.amount.neg, a.balance.currency⟩ } ∧
    (a.balance.amount.add amount.amount.neg).val
      = a.balance.amount.val - amount.amount.val ∧
    (amount.amount.val = a.balance.amount.val →
      Money.isZero ⟨a.balance.amount.add amount.amount.neg, a.balance.currency⟩ = true) ∧
    (a.balance.amount.val < amount.amount.val →
      Money.isNegative ⟨a.balance.amount.add amount.amount.neg, a.balance.currency⟩ = true) := by
  refine ⟨?_, ?_, ?_, ?_⟩
  · unfold BankAccount.withdraw Money.subtract Money.add Money.negated
    simp [h, Except.map]
  · rw [Decimal.val_add, Decimal.val_neg]
    ring
  · intro hz
    rw [Money.zeroBalance_iff]
    show (Decimal.add a.balance.amount amount.amount.neg).val = 0
    rw [Decimal.val_add, Decimal.val_neg]
    linarith
  · intro hneg
    rw [Money.isNegative_iff]
    show (Decimal.add a.balance.amount amount.amount.neg).val < 0
    rw [Decimal.val_add, Decimal.val_neg]
    linarith

/-- C1 (witness): withdrawing 6 JPY from a 5-JPY account succeeds and
yields a negative balance of -1 JPY. -/
theorem c1_witness :
    ((BankAccount.new ⟨1⟩ ⟨1⟩ (Money.yensI32 5)).withdraw (Money.yensI32 6)
      = .ok (BankAccount.new ⟨1⟩ ⟨1⟩ ⟨⟨-1, 0⟩, .JPY⟩)) ∧
    Money.isNegative ⟨⟨-1, 0⟩, .JPY⟩ = true := by
  have H := c1_withdraw_unchecked (BankAccount.new ⟨1⟩ ⟨1⟩ (Money.yensI32 5))
    (Money.yensI32 6) rfl
  refine ⟨H.1, H.2.2.2 ?_⟩
  show Decimal.val ⟨5, 0⟩ < Decimal.val ⟨6, 0⟩
  norm_num [Decimal.val]

/-- C2: depositing 1000 JPY into a zero-balance JPY account and then
transferring 10 JPY to a second zero-balance JPY account through the
transfer context succeeds, leaving the sender at 990 JPY and the receiver
at 10 JPY. -/
theorem c2_deposit_then_transfer :
    ((BankAccount.new ⟨1⟩ ⟨1⟩ (Money.zero .JPY)).deposit (Money.yensI32 1000)).bind
      (fun newBa1 =>
        (TransferContext.new newBa1 (BankAccount.new ⟨2⟩ ⟨1⟩ (Money.zero .JPY))).transfer
          (Money.yensI32 10))
    = .ok (BankAccount.new ⟨1⟩ ⟨1⟩ (Money.yensI32 990),
           BankAccount.new ⟨2⟩ ⟨1⟩ (Money.yensI32 10)) := by rfl

/-- C3: add returns the currency-mismatch error exactly when the currencies
differ (so no value is ever produced on mismatch), and on matching
currencies returns the sum of the amounts under the unchanged (left)
currency. -/
theorem c3_add_currency_mismatch (m n : Money) :
    (m.add n = .error .NotSameCurrencyError ↔ m.currency ≠ n.currency) ∧
    (m.currency = n.currency → m.add n = .ok ⟨m.amount.add n.amount, m.currency⟩) := by
  unfold Money.add
  by_cases h : m.currency = n.currency <;> simp [h]

/-- C3 (witness): adding 5 USD and 5 JPY returns the currency-mismatch
error; adding 2 JPY and 3 JPY returns their sum. -/
theorem c3_witness :
    ((Money.new ⟨5, 0⟩ .USD).add (Money.new ⟨5, 0⟩ .JPY) = .error .NotSameCurrencyError) ∧
    ((Money.yensI32 2).add (Money.yensI32 3)
      = .ok ⟨(Money.yensI32 2).amount.add (Money.yensI32 3).amount, .JPY⟩) :=
  ⟨(c3_add_currency_mismatch _ _).1.mpr (by decide),
   (c3_add_currency_mismatch _ _).2 rfl⟩

/-- C4: for every amount and currency, new stores the amount rescaled to
the currency's canonical fractional-digit count (so the stored scale is
exactly that count, 2 for USD and 0 for JPY) and keeps the currency. -/
theorem c4_new_rescales (amount : Decimal) (currency : CurrencyCode) :
    (Money.new amount currency).amount = amount.rescale currency.digit ∧
    (Money.new amount currency).amount.scale = currency.digit ∧
    (Money.new amount currency).currency = currency ∧
    CurrencyCode.digit .USD = 2 ∧ CurrencyCode.digit .JPY = 0 :=
  ⟨rfl, Decimal.rescale_scale amount currency.digit, rfl, rfl, rfl⟩

/-- C5 (counterexample): dividing 10 JPY by zero does not surface a distinct
error variant; the decimal layer's division-by-zero panic propagates
(modelled as no result at all), and the only error variant the code has is
the currency mismatch. -/
theorem c5_counterexample : (Money.yensI32 10).dividedBy Decimal.zero = none := rfl

/-- C5 (amended): divided_by always succeeds at the type level (its Rust
type carries no error channel); a zero divisor triggers the underlying
decimal layer's division-by-zero panic, which propagates as a process
fault rather than a value — it is not converted into an error variant,
since MoneyError has NotSameCurrencyError as its only variant. A nonzero
divisor yields a value with the currency unchanged. -/
theorem c5_divided_by (m : Money) (d : Decimal) (e : MoneyError) :
    (d.mantissa = 0 → m.dividedBy d = none) ∧
    (d.mantissa ≠ 0 → (m.dividedBy d).isSome = true) ∧
    ((m.dividedBy d).map Money.currency = if d.mantissa = 0 then none else some m.currency) ∧
    e = .NotSameCurrencyError := by
  unfold Money.dividedBy Decimal.div
  cases e
  by_cases h : d.mantissa = 0 <;> simp [h]

/-- C5 (witness): 10 JPY divided by 3 yields a value; 10 JPY divided by
zero yields the propagated fault. -/
theorem c5_witness :
    ((Money.yensI32 10).dividedBy ⟨3, 0⟩).isSome = true ∧
    (Money.yensI32 10).dividedBy ⟨0, 0⟩ = none :=
  ⟨(c5_divided_by (Money.yensI32 10) ⟨3, 0⟩ .NotSameCurrencyError).2.1 (by decide),
   (c5_divided_by (Money.yensI32 10) ⟨0, 0⟩ .NotSameCurrencyError).1 rfl⟩

/-- C6: comparing two Money values of different currencies yields no
ordering result (the total function partialCmp returns none, so it cannot
panic), and between same-currency values the result follows the numeric
order of the amounts. -/
theorem c6_partial_ord (m n : Money) :
    (m.currency ≠ n.currency → m.partialCmp n = none) ∧
    (m.currency = n.currency →
      (m.partialCmp n = some .gt ↔ n.amount.val < m.amount.val) ∧
      (m.partialCmp n = some .lt ↔ m.amount.val < n.amount.val) ∧
      (m.partialCmp n = some .eq ↔ m.amount.val = n.amount.val)) := by
  constructor
  · intro h
    unfold Money.partialCmp
    simp [h]
  · intro h
    have hg := Decimal.dltb_iff n.amount m.amount
    have hl := Decimal.dltb_iff m.amount n.amount
    unfold Money.partialCmp
    rcases hgt : Decimal.dltb n.amount m.amount with _ | _ <;>
      rcases hlt : Decimal.dltb m.amount n.amount with _ | _ <;>
        rw [hgt] at hg <;> rw [hlt] at hl <;>
          simp only [Bool.false_eq_true, false_iff, true_iff, not_lt] at hg hl <;>
            simp [h]
    · exact ⟨hg, hl, le_antisymm hg hl⟩
    · exact ⟨hg, hl, ne_of_lt hl⟩
    · exact ⟨hg, le_of_lt hg, ne_of_gt hg⟩
    · exact absurd (lt_trans hg hl) (lt_irrefl _)

/-- C6 (witness): 5 USD and 5 JPY are unordered; 2 JPY versus 3 JPY follows
the order of the amounts. -/
theorem c6_witness :
    ((Money.new ⟨5, 0⟩ .USD).partialCmp (Money.new ⟨5, 0⟩ .JPY) = none) ∧
    (((Money.yensI32 2).partialCmp (Money.yensI32 3) = some .gt
        ↔ (Money.yensI32 3).amount.val < (Money.yensI32 2).amount.val) ∧
      ((Money.yensI32 2).partialCmp (Money.yensI32 3) = some .lt
        ↔ (Money.yensI32 2).amount.val < (Money.yensI32 3).amount.val) ∧
      ((Money.yensI32 2).partialCmp (Money.yensI32 3) = some .eq
        ↔ (Money.yensI32 2).amount.val = (Money.yensI32 3).amount.val)) :=
  ⟨(c6_partial_ord (Money.new ⟨5, 0⟩ .USD) (Money.new ⟨5, 0⟩ .JPY)).1 (by decide),
   (c6_partial_ord (Money.yensI32 2) (Money.yensI32 3)).2 rfl⟩

/-- C7: subtract is add of the negation (definitionally, as in the source),
it fails under exactly the same condition as add, and for same-currency
operands subtract(add(m, n), n) succeeds and equals m under Money's
equality (numeric equality of amounts plus equal currency). -/
theorem c7_subtract_inverse (m n : Money) :
    (m.subtract n = m.add n.negated) ∧
    (m.subtract n = .error .NotSameCurrencyError ↔ m.add n = .error .NotSameCurrencyError) ∧
    (m.currency = n.currency →
      (m.add n).bind (fun s => s.subtract n)
        = .ok ⟨(m.amount.add n.amount).add n.amount.neg, m.currency⟩ ∧
      Money.meq ⟨(m.amount.add n.amount).add n.amount.neg, m.currency⟩ m = true) := by
  refine ⟨rfl, ?_, ?_⟩
  · unfold Money.subtract Money.add Money.negated
    by_cases h : m.currency = n.currency <;> simp [h]
  · intro h
    constructor
    · unfold Money.subtract Money.add Money.negated
      simp [h, Except.bind]
    · rw [Money.meq_iff]
      refine ⟨?_, rfl⟩
      rw [Decimal.val_add, Decimal.val_add, Decimal.val_neg]
      ring

/-- C7 (witness): with 2 JPY and 3 JPY, subtracting 3 JPY back from the
sum recovers 2 JPY. -/
theorem c7_witness :
    ((Money.yensI32 2).subtract (Money.yensI32 3)
      = (Money.yensI32 2).add (Money.yensI32 3).negated) ∧
    (((Money.yensI32 2).add (Money.yensI32 3)).bind (fun s => s.subtract (Money.yensI32 3))
      = .ok ⟨((Money.yensI32 2).amount.add (Money.yensI32 3).amount).add
          (Money.yensI32 3).amount.neg, (Money.yensI32 2).currency⟩) ∧
    Money.meq ⟨((Money.yensI32 2).amount.add (Money.yensI32 3).amount).add
        (Money.yensI32 3).amount.neg, (Money.yensI32 2).currency⟩ (Money.yensI32 2) = true :=
  ⟨(c7_subtract_inverse (Money.yensI32 2) (Money.yensI32 3)).1,
   ((c7_subtract_inverse (Money.yensI32 2) (Money.yensI32 3)).2.2 rfl).1,
   ((c7_subtract_inverse (Money.yensI32 2) (Money.yensI32 3)).2.2 rfl).2⟩

/-- C8: for same-currency operands add is commutative and associative under
the PartialEq of Result<Money, MoneyError>, and on a currency mismatch it
returns the error (never a silently coerced value). -/
theorem c8_add_comm_assoc (m n p : Money) :
    (m.currency ≠ n.currency → m.add n = .error .NotSameCurrencyError) ∧
    (m.currency = n.currency →
      Money.reqv (m.add n) (n.add m) = true ∧
      (n.currency = p.currency →
        Money.reqv ((m.add n).bind fun s => s.add p)
          ((n.add p).bind fun t => m.add t) = true)) := by
  constructor
  · intro h
    unfold Money.add
    simp [h]
  · intro h
    constructor
    · unfold Money.add
      simp only [h, ne_eq, not_true_eq_false, if_false, ite_false]
      rw [Money.reqv_ok_ok, Money.meq_iff]
      refine ⟨?_, rfl⟩
      rw [Decimal.val_add, Decimal.val_add]
      ring
    · intro hp
      unfold Money.add
      have hmp : m.currency = p.currency := h.trans hp
      simp only [h, hp, hmp, ne_eq, not_true_eq_false, if_false, ite_false, Except.bind]
      rw [Money.reqv_ok_ok, Money.meq_iff]
      refine ⟨?_, rfl⟩
      rw [Decimal.val_add, Decimal.val_add, Decimal.val_add, Decimal.val_add]
      ring

/-- C8 (witness): 1 JPY + 2 JPY commutes, (1 + 2) + 4 JPY associates, and
adding 1 USD to 1 JPY returns the currency-mismatch error. -/
theorem c8_witness :
    (Money.reqv ((Money.yensI32 1).add (Money.yensI32 2))
      ((Money.yensI32 2).add (Money.yensI32 1)) = true) ∧
    (Money.reqv (((Money.yensI32 1).add (Money.yensI32 2)).bind fun s => s.add (Money.yensI32 4))
      (((Money.yensI32 2).add (Money.yensI32 4)).bind fun t => (Money.yensI32 1).add t)
        = true) ∧
    (Money.new ⟨1, 0⟩ .USD).add (Money.yensI32 1) = .error .NotSameCurrencyError :=
  ⟨((c8_add_comm_assoc (Money.yensI32 1) (Money.yensI32 2) (Money.yensI32 4)).2 rfl).1,
   (((c8_add_comm_assoc (Money.yensI32 1) (Money.yensI32 2) (Money.yensI32 4)).2 rfl).2 rfl),
   (c8_add_comm_assoc (Money.new ⟨1, 0⟩ .USD) (Money.yensI32 1) (Money.yensI32 1)).1 (by decide)⟩

/-- C9: on_receive deposits the money into the receiver and never reads the
sender argument: any two sender states give the same result, which is
exactly the result of the underlying deposit (so it fails iff the deposit
fails). -/
theorem c9_on_receive_ignores_sender (receiver : BankAccount) (money : Money)
    (f1 f2 : BankAccount) :
    receiver.onReceive money f1 = receiver.onReceive money f2 ∧
    receiver.onReceive money f1 = receiver.deposit money := by
  have h : ∀ f, receiver.onReceive money f = receiver.deposit money := by
    intro f
    unfold BankAccount.onReceive
    cases receiver.deposit money <;> rfl
  exact ⟨(h f1).trans (h f2).symm, h f1⟩

/-- C10: whenever deposit or withdraw succeeds, the returned account keeps
the account identifier and the owning-user identifier of the input account;
only the balance changes. -/
theorem c10_frame (a a' : BankAccount) (amount : Money) :
    (a.deposit amount = .ok a' → a'.id = a.id ∧ a'.userAccountId = a.userAccountId) ∧
    (a.withdraw amount = .ok a' → a'.id = a.id ∧ a'.userAccountId = a.userAccountId) := by
  unfold BankAccount.deposit BankAccount.withdraw
  constructor
  · cases a.balance.add amount <;> intro h <;> simp [Except.map] at h
    subst h
    exact ⟨rfl, rfl⟩
  · cases a.balance.subtract amount <;> intro h <;> simp [Except.map] at h
    subst h
    exact ⟨rfl, rfl⟩

/-- C10 (witness): depositing 3 JPY into a 5-JPY account with ids 7 and 8
returns an 8-JPY account with the same ids. -/
theorem c10_witness :
    ((BankAccount.new ⟨7⟩ ⟨8⟩ (Money.yensI32 5)).deposit (Money.yensI32 3)
      = .ok (BankAccount.new ⟨7⟩ ⟨8⟩ (Money.yensI32 8))) ∧
    (BankAccount.new ⟨7⟩ ⟨8⟩ (Money.yensI32 8)).id
      = (BankAccount.new ⟨7⟩ ⟨8⟩ (Money.yensI32 5)).id ∧
    (BankAccount.new ⟨7⟩ ⟨8⟩ (Money.yensI32 8)).userAccountId
      = (BankAccount.new ⟨7⟩ ⟨8⟩ (Money.yensI32 5)).userAccountId :=
  ⟨rfl, (c10_frame (BankAccount.new ⟨7⟩ ⟨8⟩ (Money.yensI32 5))
      (BankAccount.new ⟨7⟩ ⟨8⟩ (Money.yensI32 8)) (Money.yensI32 3)).1 rfl⟩
